import Mathlib

/-!
Shallow embedding of the md-remove-member service (src/server.mjs, the main
server, and src/unnamed/part_000, a legacy variant of the same service).

The remote platform (noblox.js) is modelled as an `Oracle`: a family of
response streams, one per remote API, indexed by how many times that API has
been called so far.  The mutable process state (the `authed` / `loggedIn`
flag, call counters and call logs, and the performed backoff delays) is the
explicit state `St` threaded through every operation.  JavaScript values
appearing in request bodies are modelled by `JsVal` (JSON scalars), with
JS truthiness and `Number(...)` conversion made explicit; a JS number that
is `NaN` is modelled as `none : Option Int`.
-/

/-- A JSON scalar value as it may appear in a request body field.
An absent field (`undefined` in JS) is `none : Option JsVal`. -/
inductive JsVal : Type
  | num (n : Int)
  | str (s : String)
  | bool (b : Bool)
  | null
deriving Repr, DecidableEq

/-- JS truthiness of a possibly-absent body field (`undefined`, `null`,
`0`, `""` and `false` are falsy). -/
def truthy : Option JsVal → Bool
  | none => false
  | some (.num n) => n != 0
  | some (.str s) => !s.isEmpty
  | some (.bool b) => b
  | some .null => false

/-- The JS test `x != null`, true when the field is neither absent nor null. -/
def notNullish : Option JsVal → Bool
  | none => false
  | some .null => false
  | some _ => true

/-- Digits of s as a natural number; `none` when a non-digit occurs.
The empty list yields `some 0`, matching JS `Number("") === 0`. -/
def digitsToNat : List Char → Option Nat
  | l => l.foldl
      (fun acc c =>
        match acc with
        | none => none
        | some n => if c.isDigit then some (n * 10 + (c.toNat - 48)) else none)
      (some 0)

/-- JS `Number(s)` for a string, on the integer-literal strings this service
handles: optional minus sign and decimal digits; anything else is NaN
(`none`).  `Number("") = 0` as in JS. -/
def jsStrToNumber (s : String) : Option Int :=
  match s.toList with
  | '-' :: rest =>
      if rest.isEmpty then none else (digitsToNat rest).map (fun n => -(n : Int))
  | l => (digitsToNat l).map (fun n => (n : Int))

/-- JS `Number(x)` of a possibly-absent body field; `none` is NaN
(`Number(undefined)` is NaN, `Number(null)` is 0). -/
def toNumber : Option JsVal → Option Int
  | none => none
  | some (.num n) => some n
  | some (.str s) => jsStrToNumber s
  | some (.bool b) => some (if b then 1 else 0)
  | some .null => some 0

/-- Test whether `p` is an initial segment of `l`. -/
def leadsWith : List Char → List Char → Bool
  | [], _ => true
  | _ :: _, [] => false
  | p :: ps, x :: xs => p == x && leadsWith ps xs

/-- Test whether `p` occurs contiguously inside the second list. -/
def occursIn (p : List Char) : List Char → Bool
  | [] => leadsWith p []
  | x :: xs => leadsWith p (x :: xs) || occursIn p xs

/-- Case-sensitive substring test used to model regex / `includes` checks. -/
def strContains (s pat : String) : Bool :=
  occursIn pat.toList s.toList

/-- The characters of `s` in upper case (`String.toUpper`, spelt out on the
character list). -/
def upperChars (s : String) : List Char :=
  s.toList.map Char.toUpper

/-- src/server.mjs `isCsrfError`: `/X-?CSRF/i.test(msg) ||
msg.includes("Did not receive X-CSRF-TOKEN")`.  The case-insensitive regex
`X-?CSRF` matches an occurrence of `X-CSRF` or `XCSRF` up to case. -/
def isCsrfError (msg : String) : Bool :=
  occursIn "X-CSRF".toList (upperChars msg) ||
    occursIn "XCSRF".toList (upperChars msg) ||
    strContains msg "Did not receive X-CSRF-TOKEN"

/-- A role as returned by the remote `getRoles` (`{id, name, rank}`). -/
structure Role : Type where
  id : Int
  name : String
  rank : Int
deriving Repr, DecidableEq

/-- One recorded remote `setRank(groupId, userId, rank)` call
(`none` arguments model NaN). -/
structure SetRankCall : Type where
  groupId : Int
  userId : Option Int
  rank : Option Int
deriving Repr, DecidableEq

/-- One recorded remote `exile(groupId, userId)` call. -/
structure ExileCall : Type where
  groupId : Int
  userId : Option Int
deriving Repr, DecidableEq

/-- One recorded remote `handleJoinRequest(groupId, userId, accept)` call. -/
structure JoinCall : Type where
  groupId : Int
  userId : Option Int
  accept : Bool
deriving Repr, DecidableEq

/-- Outcome of one real login round: the result of `setCookie(cookie)` and,
 if that succeeded, of `getCurrentUser()` (its `UserID`, `none` when the
returned identity has no usable `UserID`). -/
structure LoginStep : Type where
  setCookieRes : Except String Unit
  currentUserId : Except String (Option Int)

/-- The remote platform: per-API response streams indexed by the number of
calls made to that API so far. -/
structure Oracle : Type where
  login : Nat → LoginStep
  getRoles : Nat → Except String (List Role)
  setRank : Nat → Except String Unit
  exile : Nat → Except String Unit
  handleJoin : Nat → Except String Unit
  getId : Nat → Option Int

/-- Process state: the shared `authed`/`loggedIn` flag, network-call
counters and logs, and the backoff delays performed (ms). -/
structure St : Type where
  authed : Bool
  loginCalls : Nat
  userCalls : Nat
  rolesCalls : Nat
  setRankLog : List SetRankCall
  exileLog : List ExileCall
  joinLog : List JoinCall
  getIdCalls : Nat
  delays : List Nat
deriving Repr, DecidableEq

/-- Process start: unauthenticated, no calls made. -/
def St.init : St :=
  { authed := false, loginCalls := 0, userCalls := 0, rolesCalls := 0,
    setRankLog := [], exileLog := [], joinLog := [], getIdCalls := 0,
    delays := [] }

/-- Truthiness of `me?.UserID`: an identity with a nonzero `UserID`. -/
def validUser : Option Int → Bool
  | some n => n != 0
  | none => false

/-- src/server.mjs `ensureAuth`: return at once when `authed`; otherwise
`setCookie`, then `getCurrentUser`, failing (and leaving `authed` false)
unless a valid identity comes back. -/
def ensureAuth (o : Oracle) (s : St) : Except String Unit × St :=
  if s.authed then (.ok (), s)
  else
    let step := o.login s.loginCalls
    let s1 := { s with loginCalls := s.loginCalls + 1 }
    match step.setCookieRes with
    | .error e => (.error e, s1)
    | .ok _ =>
      let s2 := { s1 with userCalls := s1.userCalls + 1 }
      match step.currentUserId with
      | .error e => (.error e, s2)
      | .ok me =>
        if validUser me then (.ok (), { s2 with authed := true })
        else (.error "Roblox auth sanity check failed", s2)

/-- src/unnamed/part_000 `ensureLogin`: when not logged in, `setCookie` and
mark the session logged in — no identity check at all. -/
def ensureLogin (o : Oracle) (s : St) : Except String Unit × St :=
  if s.authed then (.ok (), s)
  else
    match (o.login s.loginCalls).setCookieRes with
    | .error e => (.error e, { s with loginCalls := s.loginCalls + 1 })
    | .ok _ => (.ok (), { s with loginCalls := s.loginCalls + 1, authed := true })

/-- One `noblox.getRoles(GROUP_ID)` call. -/
def callGetRoles (o : Oracle) (s : St) : Except String (List Role) × St :=
  (o.getRoles s.rolesCalls, { s with rolesCalls := s.rolesCalls + 1 })

/-- One `noblox.setRank(groupId, userId, rank)` call. -/
def callSetRank (o : Oracle) (gid : Int) (uid rank : Option Int) (s : St) :
    Except String Unit × St :=
  (o.setRank s.setRankLog.length,
   { s with setRankLog := s.setRankLog ++ [⟨gid, uid, rank⟩] })

/-- One `noblox.exile(groupId, userId)` call. -/
def callExile (o : Oracle) (gid : Int) (uid : Option Int) (s : St) :
    Except String Unit × St :=
  (o.exile s.exileLog.length, { s with exileLog := s.exileLog ++ [⟨gid, uid⟩] })

/-- One `noblox.handleJoinRequest(groupId, userId, true)` call. -/
def callJoin (o : Oracle) (gid : Int) (uid : Option Int) (s : St) :
    Except String Unit × St :=
  (o.handleJoin s.joinLog.length,
   { s with joinLog := s.joinLog ++ [⟨gid, uid, true⟩] })

/-- The state update performed before a retry: `authed = false` followed by
`await delay(1500)`. -/
def retryState (s : St) : St :=
  { s with authed := false, delays := s.delays ++ [1500] }

/-- src/server.mjs `withAuthRetry` with `remaining` attempts left: each
attempt runs `ensureAuth` then the operation; a failure is retried (after
invalidating and a 1500 ms delay) exactly when `isCsrfError` accepts it and
attempts remain, and propagates otherwise.  With zero attempts the loop body
never runs and the JS function resolves to `undefined`, modelled `.ok none`;
a successful operation yields `.ok (some v)`. -/
def withAuthRetryAux (o : Oracle) (op : St → Except String α × St) :
    Nat → St → Except String (Option α) × St
  | 0, s => (.ok none, s)
  | Nat.succ r, s =>
    let a := ensureAuth o s
    match a.1 with
    | .error e =>
      if isCsrfError e && (r != 0) then withAuthRetryAux o op r (retryState a.2)
      else (.error e, a.2)
    | .ok _ =>
      let p := op a.2
      match p.1 with
      | .ok v => (.ok (some v), p.2)
      | .error e =>
        if isCsrfError e && (r != 0) then withAuthRetryAux o op r (retryState p.2)
        else (.error e, p.2)

/-- Wrapper `withAuthRetry(fn)` as every call site uses it: the default
`tries = 3`. -/
def withAuthRetry (o : Oracle) (op : St → Except String α × St) (s : St) :
    Except String (Option α) × St :=
  withAuthRetryAux o op 3 s

/-- A response body, one constructor per JSON shape the two servers emit
(`textBody` is a plain-text body such as the one `res.sendStatus` sends). -/
inductive RespBody : Type
  | errBody (code : String)
  | okTrue
  | okApplied (rank : Option Int)
  | okGroup (groupId : Int)
  | rolesBody (roles : Option (List Role))
  | okTrueRoles (roles : List Role)
  | okRemoved (robloxId : Option Int)
  | okRank (robloxId rank : Option Int)
  | textBody (s : String)
deriving Repr, DecidableEq

/-- An HTTP response: status and body. -/
structure Resp : Type where
  status : Nat
  body : RespBody
deriving Repr, DecidableEq

/-- Build a response. -/
def resp (status : Nat) (b : RespBody) : Resp := ⟨status, b⟩

/-- The body fields the handlers read (absent field = `none`). -/
structure ReqBody : Type where
  robloxId : Option JsVal
  roleId : Option JsVal
  rankNumber : Option JsVal
  username : Option JsVal
deriving Repr, DecidableEq

/-- An empty request body. -/
def ReqBody.empty : ReqBody := ⟨none, none, none, none⟩

/-- An inbound request: the `X-Secret-Key` header (absent = `none`) and the
parsed JSON body. -/
structure Request : Type where
  secret : Option String
  body : ReqBody
deriving Repr, DecidableEq

/-- Service configuration: the numeric group id and the shared secret. -/
structure Config : Type where
  groupId : Int
  secret : String
deriving Repr, DecidableEq

/-- src/server.mjs `requireSecret`: the `X-Secret-Key` header must equal the
configured secret (an absent header never equals it). -/
def requireSecret (cfg : Config) (req : Request) : Bool :=
  req.secret == some cfg.secret

/-- src/unnamed/part_000 shared-secret middleware test:
`!key || key !== SERVICE_SECRET` rejects. -/
def legacyGateRejects (cfg : Config) (req : Request) : Bool :=
  match req.secret with
  | none => true
  | some k => k.isEmpty || k != cfg.secret

/-- Model of `roles.find(r => Number(r.id) === Number(roleId))`; a NaN `roleId`
(`none`) matches nothing, as strict equality with NaN is always false. -/
def findRole (roles : List Role) (rid : Option Int) : Option Role :=
  match rid with
  | none => none
  | some v => roles.find? (fun r => r.id == v)

/-- The outcome of the duplicated rank-resolution-and-apply block shared by
`/set-rank` and `/ensure-member-and-rank` in src/server.mjs, before it is
mapped to a response (the two handlers differ only in the 500 error code). -/
inductive RankOutcome : Type
  | applied (rank : Option Int)
  | invalidRole
  | missingTarget
  | remoteFail
deriving Repr, DecidableEq

/-- The `setRank` call plus success / failure mapping at the end of the
shared block: on success `{ok:true, appliedRank:rankToSet}`. -/
def applyRank (cfg : Config) (o : Oracle) (uid rank : Option Int) (s : St) :
    RankOutcome × St :=
  match withAuthRetry o (callSetRank o cfg.groupId uid rank) s with
  | (.ok _, s1) => (.applied rank, s1)
  | (.error _, s1) => (.remoteFail, s1)

/-- The shared rank-resolution block of src/server.mjs lines 107-122 and
160-173: translate `roleId` through a fresh role fetch when given
(`roleId != null`), else use `rankNumber` when given, else fail validation;
then apply the rank. -/
def resolveRank (cfg : Config) (b : ReqBody) (o : Oracle) (s : St) :
    RankOutcome × St :=
  if notNullish b.roleId then
    match withAuthRetry o (callGetRoles o) s with
    | (.error _, s1) => (.remoteFail, s1)
    | (.ok none, s1) => (.remoteFail, s1)
    | (.ok (some roles), s1) =>
      match findRole roles (toNumber b.roleId) with
      | none => (.invalidRole, s1)
      | some role => applyRank cfg o (toNumber b.robloxId) (some role.rank) s1
  else if notNullish b.rankNumber then
    applyRank cfg o (toNumber b.robloxId) (toNumber b.rankNumber) s
  else (.missingTarget, s)

/-- Map a `RankOutcome` to the response, with the handler's 500 code. -/
def rankResp (code : String) : RankOutcome → Resp
  | .applied r => resp 200 (.okApplied r)
  | .invalidRole => resp 400 (.errBody "invalid_roleId")
  | .missingTarget => resp 400 (.errBody "missing_roleId_or_rankNumber")
  | .remoteFail => resp 500 (.errBody code)

/-- src/server.mjs `POST /set-rank`. -/
def postSetRank (cfg : Config) (req : Request) (o : Oracle) (s : St) :
    Resp × St :=
  if !requireSecret cfg req then (resp 401 (.errBody "unauthorized"), s)
  else if !truthy req.body.robloxId then (resp 400 (.errBody "missing_robloxId"), s)
  else
    let (out, s1) := resolveRank cfg req.body o s
    (rankResp "set_rank_failed" out, s1)

/-- src/server.mjs `POST /ensure-member-and-rank`: try to accept a pending
join request, ignore any failure of that step, then the same rank block as
`/set-rank` with its own 500 code. -/
def postEnsureMemberAndRank (cfg : Config) (req : Request) (o : Oracle)
    (s : St) : Resp × St :=
  if !requireSecret cfg req then (resp 401 (.errBody "unauthorized"), s)
  else if !truthy req.body.robloxId then (resp 400 (.errBody "missing_robloxId"), s)
  else
    let j := withAuthRetry o (callJoin o cfg.groupId (toNumber req.body.robloxId)) s
    let (out, s2) := resolveRank cfg req.body o j.2
    (rankResp "ensure_member_rank_failed" out, s2)

/-- src/server.mjs `POST /remove`. -/
def postRemove (cfg : Config) (req : Request) (o : Oracle) (s : St) :
    Resp × St :=
  if !requireSecret cfg req then (resp 401 (.errBody "unauthorized"), s)
  else if !truthy req.body.robloxId then (resp 400 (.errBody "missing_robloxId"), s)
  else
    match withAuthRetry o (callExile o cfg.groupId (toNumber req.body.robloxId)) s with
    | (.ok _, s1) => (resp 200 .okTrue, s1)
    | (.error _, s1) => (resp 500 (.errBody "remove_failed"), s1)

/-- src/server.mjs `POST /accept-join`. -/
def postAcceptJoin (cfg : Config) (req : Request) (o : Oracle) (s : St) :
    Resp × St :=
  if !requireSecret cfg req then (resp 401 (.errBody "unauthorized"), s)
  else if !truthy req.body.robloxId then (resp 400 (.errBody "missing_robloxId"), s)
  else
    match withAuthRetry o (callJoin o cfg.groupId (toNumber req.body.robloxId)) s with
    | (.ok _, s1) => (resp 200 .okTrue, s1)
    | (.error _, s1) => (resp 500 (.errBody "accept_join_failed"), s1)

/-- src/server.mjs `GET /ranks`. -/
def getRanks (cfg : Config) (req : Request) (o : Oracle) (s : St) :
    Resp × St :=
  if !requireSecret cfg req then (resp 401 (.errBody "unauthorized"), s)
  else
    match withAuthRetry o (callGetRoles o) s with
    | (.ok r, s1) => (resp 200 (.rolesBody r), s1)
    | (.error _, s1) => (resp 500 (.errBody "ranks_failed"), s1)

/-- src/server.mjs `GET /health`: no secret required. -/
def getHealth (cfg : Config) (o : Oracle) (s : St) : Resp × St :=
  match ensureAuth o s with
  | (.ok _, s1) => (resp 200 (.okGroup cfg.groupId), s1)
  | (.error _, s1) => (resp 500 (.errBody "health_failed"), s1)

/-- src/unnamed/part_000 `GET /`: registered before the secret middleware,
always `200 OK`. -/
def legacyGetRoot (s : St) : Resp × St := (resp 200 (.textBody "OK"), s)

/-- The tail of src/unnamed/part_000 `/set-rank` once `targetRank` is fixed:
reject a falsy or NaN target, else call `setRank` and answer with the
applied numbers. -/
def legacyApply (cfg : Config) (o : Oracle) (b : ReqBody) (tr : Option JsVal)
    (s : St) : Resp × St :=
  if !truthy tr || (toNumber tr).isNone then
    (resp 400 (.errBody "rankNumber or roleId required"), s)
  else
    match callSetRank o cfg.groupId (toNumber b.robloxId) (toNumber tr) s with
    | (.ok _, s1) => (resp 200 (.okRank (toNumber b.robloxId) (toNumber tr)), s1)
    | (.error _, s1) => (resp 500 (.errBody "set_rank_failed"), s1)

/-- src/unnamed/part_000 `POST /set-rank`: login, validate `robloxId`
numerically, start from `targetRank = rankNumber` and only consult `roleId`
when `targetRank` is falsy, then the shared tail. -/
def legacyPostSetRank (cfg : Config) (req : Request) (o : Oracle) (s : St) :
    Resp × St :=
  if legacyGateRejects cfg req then (resp 401 (.textBody "Unauthorized"), s)
  else
    match ensureLogin o s with
    | (.error _, s1) => (resp 500 (.errBody "set_rank_failed"), s1)
    | (.ok _, s1) =>
      let b := req.body
      if !truthy b.robloxId || (toNumber b.robloxId).isNone then
        (resp 400 (.errBody "robloxId required"), s1)
      else
        if !truthy b.rankNumber && truthy b.roleId then
          match callGetRoles o s1 with
          | (.error _, s2) => (resp 500 (.errBody "set_rank_failed"), s2)
          | (.ok roles, s2) =>
            match findRole roles (toNumber b.roleId) with
            | none => (resp 400 (.errBody "invalid_roleId"), s2)
            | some role => legacyApply cfg o b (some (.num role.rank)) s2
        else legacyApply cfg o b b.rankNumber s1

/-- src/unnamed/part_000 `POST /remove`: login, resolve a username to an id
when no truthy `robloxId` was sent (a failed lookup becomes `null`),
validate numerically, then exile. -/
def legacyPostRemove (cfg : Config) (req : Request) (o : Oracle) (s : St) :
    Resp × St :=
  if legacyGateRejects cfg req then (resp 401 (.textBody "Unauthorized"), s)
  else
    match ensureLogin o s with
    | (.error _, s1) => (resp 500 (.errBody "removal_failed"), s1)
    | (.ok _, s1) =>
      let b := req.body
      let rb :=
        if !truthy b.robloxId && truthy b.username then
          match o.getId s1.getIdCalls with
          | some i => some (JsVal.num i)
          | none => some JsVal.null
        else b.robloxId
      let s2 :=
        if !truthy b.robloxId && truthy b.username then
          { s1 with getIdCalls := s1.getIdCalls + 1 }
        else s1
      if !truthy rb || (toNumber rb).isNone then
        (resp 400 (.errBody "robloxId (or valid username) required"), s2)
      else
        match callExile o cfg.groupId (toNumber rb) s2 with
        | (.ok _, s3) => (resp 200 (.okRemoved (toNumber rb)), s3)
        | (.error _, s3) => (resp 500 (.errBody "removal_failed"), s3)

/-- src/unnamed/part_000 `GET /ranks`: login, fetch roles, filter out the
rank-0 guest role. -/
def legacyGetRanks (cfg : Config) (req : Request) (o : Oracle) (s : St) :
    Resp × St :=
  if legacyGateRejects cfg req then (resp 401 (.textBody "Unauthorized"), s)
  else
    match ensureLogin o s with
    | (.error _, s1) => (resp 500 (.errBody "get_ranks_failed"), s1)
    | (.ok _, s1) =>
      match callGetRoles o s1 with
      | (.error _, s2) => (resp 500 (.errBody "get_ranks_failed"), s2)
      | (.ok roles, s2) =>
        (resp 200 (.okTrueRoles (roles.filter (fun r => decide (0 < r.rank)))), s2)

/-- The remote login endpoints behave: every `setCookie` succeeds and every
`getCurrentUser` returns a valid (nonzero) identity. -/
def healthyLogins (o : Oracle) : Prop :=
  ∀ k, (o.login k).setCookieRes = .ok () ∧
    ∃ u, (o.login k).currentUserId = .ok (some u) ∧ u ≠ 0

/-- The CSRF-signature failure message the remote API produces. -/
def csrfMsg : String := "Did not receive X-CSRF-TOKEN"

/-- A sample guest role (rank 0). -/
def roleGuest : Role := ⟨1, "Guest", 0⟩

/-- A sample member role. -/
def roleMember : Role := ⟨2, "Member", 10⟩

/-- A platform where every remote call succeeds. -/
def oHealthy : Oracle :=
  { login := fun _ => ⟨.ok (), .ok (some 42)⟩
    getRoles := fun _ => .ok [roleGuest, roleMember]
    setRank := fun _ => .ok ()
    exile := fun _ => .ok ()
    handleJoin := fun _ => .ok ()
    getId := fun _ => none }

/-- A platform that rejects every operation with the CSRF signature while
logins stay healthy. -/
def oAllCsrf : Oracle :=
  { login := fun _ => ⟨.ok (), .ok (some 42)⟩
    getRoles := fun _ => .error csrfMsg
    setRank := fun _ => .error csrfMsg
    exile := fun _ => .error csrfMsg
    handleJoin := fun _ => .error csrfMsg
    getId := fun _ => none }

/-- A platform whose `setCookie` succeeds but whose `getCurrentUser`
returns no valid identity. -/
def oNoIdentity : Oracle :=
  { login := fun _ => ⟨.ok (), .ok none⟩
    getRoles := fun _ => .ok [roleGuest, roleMember]
    setRank := fun _ => .ok ()
    exile := fun _ => .ok ()
    handleJoin := fun _ => .ok ()
    getId := fun _ => none }

/-- A sample configuration. -/
def cfg0 : Config := ⟨7, "sek"⟩

/-- A correctly-authenticated request asking rank 50 for user 123. -/
def req50 : Request :=
  ⟨some "sek", ⟨some (.num 123), none, some (.num 50), none⟩⟩

/-- A correctly-authenticated request with a user but no rank target. -/
def reqNoTarget : Request :=
  ⟨some "sek", ⟨some (.num 123), none, none, none⟩⟩

/-- A correctly-authenticated request whose `robloxId` is the non-numeric
string `"abc"`. -/
def reqBadId : Request :=
  ⟨some "sek", ⟨some (.str "abc"), none, none, none⟩⟩

/-- A correctly-authenticated request asking rank 0 for user 123. -/
def reqRank0 : Request :=
  ⟨some "sek", ⟨some (.num 123), none, some (.num 0), none⟩⟩

/-- A correctly-authenticated request naming the guest role (rank 0). -/
def reqGuestRole : Request :=
  ⟨some "sek", ⟨some (.num 123), some (.num 1), none, none⟩⟩

/-- A correctly-authenticated request naming a role id absent from the
role list. -/
def reqBadRole : Request :=
  ⟨some "sek", ⟨some (.num 123), some (.num 99), none, none⟩⟩

/-- A request carrying no `X-Secret-Key` header. -/
def reqNoSecret : Request :=
  ⟨none, ⟨some (.num 123), none, some (.num 50), none⟩⟩

/-- Rename `/set-rank`'s remote-failure code into
`/ensure-member-and-rank`'s, leaving every other response unchanged. -/
def renameSR (r : Resp) : Resp :=
  if r.body = RespBody.errBody "set_rank_failed" then
    { r with body := .errBody "ensure_member_rank_failed" }
  else r


/-- Lemma: `ensureAuth` touches only the login flag, the login counters and
nothing else: all remote-operation logs and counters are preserved. -/
theorem ensureAuth_preserve (o : Oracle) (s : St) :
    (ensureAuth o s).2.rolesCalls = s.rolesCalls ∧
    (ensureAuth o s).2.setRankLog = s.setRankLog ∧
    (ensureAuth o s).2.exileLog = s.exileLog ∧
    (ensureAuth o s).2.joinLog = s.joinLog ∧
    (ensureAuth o s).2.getIdCalls = s.getIdCalls ∧
    (ensureAuth o s).2.delays = s.delays := by
  simp only [ensureAuth]
  split
  · simp
  · split
    · simp
    · split
      · simp
      · split <;> simp

/-- Under healthy logins `ensureAuth` always succeeds and leaves the
session authenticated. -/
theorem ensureAuth_healthy (o : Oracle) (hL : healthyLogins o) (s : St) :
    (ensureAuth o s).1 = .ok () ∧ (ensureAuth o s).2.authed = true := by
  obtain ⟨hc, u, hu, hne⟩ := hL s.loginCalls
  by_cases h : s.authed = true
  · simp [ensureAuth, h]
  · simp [ensureAuth, h, hc, hu, validUser, hne]

/-- Under healthy logins `ensureLogin` succeeds and marks the session
logged in, leaving every field except `authed` and `loginCalls` unchanged. -/
theorem ensureLogin_healthy (o : Oracle) (hL : healthyLogins o) (s : St) :
    (ensureLogin o s).1 = .ok () ∧ (ensureLogin o s).2.authed = true ∧
    (ensureLogin o s).2.rolesCalls = s.rolesCalls ∧
    (ensureLogin o s).2.setRankLog = s.setRankLog ∧
    (ensureLogin o s).2.exileLog = s.exileLog ∧
    (ensureLogin o s).2.getIdCalls = s.getIdCalls ∧
    (ensureLogin o s).2.userCalls = s.userCalls := by
  obtain ⟨hc, -⟩ := hL s.loginCalls
  by_cases h : s.authed = true
  · simp [ensureLogin, h]
  · simp [ensureLogin, h, hc]

/-- A first attempt whose operation succeeds: `withAuthRetry` returns its
value at once. -/
theorem retryAux_first_ok {α : Type} (o : Oracle) (op : St → Except String α × St)
    (n : Nat) (s : St) (hn : n ≠ 0)
    (ha : (ensureAuth o s).1 = .ok ())
    (v : α) (s2 : St) (hop : op (ensureAuth o s).2 = (.ok v, s2)) :
    withAuthRetryAux o op n s = (.ok (some v), s2) := by
  cases n with
  | zero => exact absurd rfl hn
  | succ r =>
    simp only [withAuthRetryAux]
    rw [ha, hop]

/-- A first attempt whose operation fails non-retryably (not the CSRF
signature, or no attempts remain): the failure propagates at once. -/
theorem retryAux_first_err {α : Type} (o : Oracle) (op : St → Except String α × St)
    (r : Nat) (s : St)
    (ha : (ensureAuth o s).1 = .ok ())
    (e : String) (s2 : St) (hop : op (ensureAuth o s).2 = (.error e, s2))
    (hnc : (isCsrfError e && (r != 0)) = false) :
    withAuthRetryAux o op (r + 1) s = (.error e, s2) := by
  simp only [withAuthRetryAux]
  rw [ha, hop]
  simp [hnc]

/-- A first attempt that fails with the CSRF signature while attempts
remain: the loop continues from the invalidated, delayed state. -/
theorem retryAux_csrf_step {α : Type} (o : Oracle) (op : St → Except String α × St)
    (r : Nat) (s : St)
    (ha : (ensureAuth o s).1 = .ok ())
    (e : String) (s2 : St) (hop : op (ensureAuth o s).2 = (.error e, s2))
    (hc : isCsrfError e = true) (hr : r ≠ 0) :
    withAuthRetryAux o op (r + 1) s = withAuthRetryAux o op r (retryState s2) := by
  simp only [withAuthRetryAux]
  rw [ha, hop]
  simp [hc, hr]

/-- Whatever happens inside `withAuthRetry`, any state component that the
operation, `ensureAuth` and the retry update all preserve is preserved by
the whole loop. -/
theorem retryAux_preserve {α β : Type} (o : Oracle) (op : St → Except String α × St)
    (f : St → β)
    (hA : ∀ s, f (ensureAuth o s).2 = f s)
    (hop : ∀ s, f (op s).2 = f s)
    (hR : ∀ s, f (retryState s) = f s) :
    ∀ n s, f (withAuthRetryAux o op n s).2 = f s := by
  intro n
  induction n with
  | zero => intro s; rfl
  | succ r ih =>
    intro s
    simp only [withAuthRetryAux]
    cases ha : (ensureAuth o s).1 with
    | error e =>
      by_cases hc : (isCsrfError e && (r != 0)) = true
      · simp only [hc, if_true]
        rw [ih, hR, hA]
      · simp only [Bool.not_eq_true] at hc
        simp only [hc, Bool.false_eq_true, if_false]
        exact hA s
    | ok u =>
      cases hp : (op (ensureAuth o s).2).1 with
      | ok v =>
        simp only []
        rw [hop, hA]
      | error e =>
        by_cases hc : (isCsrfError e && (r != 0)) = true
        · simp only [hc, if_true]
          rw [ih, hR, hop, hA]
        · simp only [Bool.not_eq_true] at hc
          simp only [hc, Bool.false_eq_true, if_false]
          rw [hop, hA]

/-- Two runs of `withAuthRetry`, under healthy logins, from states that
agree on everything the operation reads, return the same result and still
agree afterwards. -/
theorem retryAux_congr {α β : Type} (o : Oracle) (op : St → Except String α × St)
    (f : St → β) (hL : healthyLogins o)
    (hA : ∀ s, f (ensureAuth o s).2 = f s)
    (hop : ∀ s t, f s = f t → (op s).1 = (op t).1 ∧ f (op s).2 = f (op t).2)
    (hR : ∀ s, f (retryState s) = f s) :
    ∀ n s t, f s = f t →
      (withAuthRetryAux o op n s).1 = (withAuthRetryAux o op n t).1 ∧
      f (withAuthRetryAux o op n s).2 = f (withAuthRetryAux o op n t).2 := by
  intro n
  induction n with
  | zero => intro s t h; exact ⟨rfl, h⟩
  | succ r ih =>
    intro s t h
    have has := (ensureAuth_healthy o hL s).1
    have hat := (ensureAuth_healthy o hL t).1
    have hf1 : f (ensureAuth o s).2 = f (ensureAuth o t).2 := by
      rw [hA, hA, h]
    obtain ⟨hop1, hop2⟩ := hop (ensureAuth o s).2 (ensureAuth o t).2 hf1
    simp only [withAuthRetryAux]
    rw [has, hat]
    dsimp only
    cases hp : (op (ensureAuth o s).2).1 with
    | ok v =>
      have hq : (op (ensureAuth o t).2).1 = .ok v := by rw [← hop1, hp]
      rw [hq]
      dsimp only
      exact ⟨rfl, hop2⟩
    | error e =>
      have hq : (op (ensureAuth o t).2).1 = .error e := by rw [← hop1, hp]
      rw [hq]
      dsimp only
      by_cases hc : (isCsrfError e && (r != 0)) = true
      · simp only [hc, if_true]
        exact ih _ _ (by rw [hR, hR, hop2])
      · simp only [Bool.not_eq_true] at hc
        simp [hc, hop2]

/-- When every remote `setRank` answer carries the CSRF signature (and
logins are healthy), `withAuthRetry` makes exactly `tries` `setRank`
calls and propagates the failure of the last one. -/
theorem retryAux_exhaust (o : Oracle) (gid : Int) (uid rank : Option Int)
    (hL : healthyLogins o)
    (hC : ∀ k, ∃ e, o.setRank k = .error e ∧ isCsrfError e = true) :
    ∀ tries s, tries ≠ 0 →
      ∃ e, o.setRank (s.setRankLog.length + (tries - 1)) = .error e ∧
        (withAuthRetryAux o (callSetRank o gid uid rank) tries s).1 = .error e ∧
        (withAuthRetryAux o (callSetRank o gid uid rank) tries s).2.setRankLog.length
          = s.setRankLog.length + tries := by
  intro tries
  induction tries with
  | zero => intro s h; exact absurd rfl h
  | succ r ih =>
    intro s h
    have has := (ensureAuth_healthy o hL s).1
    have hpre := (ensureAuth_preserve o s).2.1
    obtain ⟨e, he, hcs⟩ := hC (ensureAuth o s).2.setRankLog.length
    have hop : callSetRank o gid uid rank (ensureAuth o s).2
        = (.error e,
           { (ensureAuth o s).2 with
             setRankLog := (ensureAuth o s).2.setRankLog ++ [⟨gid, uid, rank⟩] }) := by
      simp [callSetRank, he]
    cases r0 : r with
    | zero =>
      refine ⟨e, by simpa [hpre] using he, ?_, ?_⟩
      · rw [retryAux_first_err o _ 0 s has e _ hop (by simp [Bool.and_false])]
      · rw [retryAux_first_err o _ 0 s has e _ hop (by simp [Bool.and_false])]
        simp [hpre]
    | succ r1 =>
      have hstep := retryAux_csrf_step o (callSetRank o gid uid rank) (r1 + 1) s has e _ hop hcs
        (by simp)
      rw [r0] at ih
      obtain ⟨e2, he2, hres, hlen⟩ := ih
        (retryState { (ensureAuth o s).2 with
          setRankLog := (ensureAuth o s).2.setRankLog ++ [⟨gid, uid, rank⟩] })
        (by simp)
      refine ⟨e2, ?_, ?_, ?_⟩
      · have : (retryState { (ensureAuth o s).2 with
            setRankLog := (ensureAuth o s).2.setRankLog ++ [⟨gid, uid, rank⟩] }).setRankLog.length
            = s.setRankLog.length + 1 := by
          simp [retryState, hpre]
        rw [this] at he2
        have harith : s.setRankLog.length + 1 + (r1 + 1 - 1)
            = s.setRankLog.length + (r1 + 1 + 1 - 1) := by omega
        rw [harith] at he2
        exact he2
      · rw [hstep]
        exact hres
      · rw [hstep, hlen]
        have : (retryState { (ensureAuth o s).2 with
            setRankLog := (ensureAuth o s).2.setRankLog ++ [⟨gid, uid, rank⟩] }).setRankLog.length
            = s.setRankLog.length + 1 := by
          simp [retryState, hpre]
        rw [this]
        omega

/-- The healthy platform has healthy logins. -/
theorem oHealthy_logins : healthyLogins oHealthy :=
  fun _ => ⟨rfl, 42, rfl, by decide⟩

/-- The all-CSRF platform has healthy logins. -/
theorem oAllCsrf_logins : healthyLogins oAllCsrf :=
  fun _ => ⟨rfl, 42, rfl, by decide⟩


/-- A first attempt whose `ensureAuth` fails non-retryably: the operation
never runs and the failure propagates. -/
theorem retryAux_auth_err {α : Type} (o : Oracle) (op : St → Except String α × St)
    (r : Nat) (s : St) (e : String)
    (ha : (ensureAuth o s).1 = .error e)
    (hnc : (isCsrfError e && (r != 0)) = false) :
    withAuthRetryAux o op (r + 1) s = (.error e, (ensureAuth o s).2) := by
  simp only [withAuthRetryAux]
  rw [ha]
  dsimp only
  simp [hnc]

/-- A first attempt whose `ensureAuth` fails with the CSRF signature while
attempts remain: the loop retries from the invalidated, delayed state. -/
theorem retryAux_auth_csrf {α : Type} (o : Oracle) (op : St → Except String α × St)
    (r : Nat) (s : St) (e : String)
    (ha : (ensureAuth o s).1 = .error e)
    (hc : isCsrfError e = true) (hr : r ≠ 0) :
    withAuthRetryAux o op (r + 1) s
      = withAuthRetryAux o op r (retryState (ensureAuth o s).2) := by
  simp only [withAuthRetryAux]
  rw [ha]
  dsimp only
  simp [hc, hr]

/-- Claim C1: every operation wrapped by the retry coordinator
(`withAuthRetry`, maxAttempts = 3) runs attempts that first call
`ensureAuth` and then the operation; a failed attempt is retried only when
its error matches the session-invalidity (CSRF) signature and attempts
remain, in which case the session is invalidated and a fixed 1500 ms delay
elapses before the retry; any other failure propagates immediately with no
further retry. -/
theorem claim_c1_retry_policy {α : Type} (o : Oracle)
    (op : St → Except String α × St) (r : Nat) (s : St) :
    (withAuthRetry o op s = withAuthRetryAux o op 3 s) ∧
    (retryState s = { s with authed := false, delays := s.delays ++ [1500] }) ∧
    (∀ v s2, (ensureAuth o s).1 = .ok () → op (ensureAuth o s).2 = (.ok v, s2) →
      withAuthRetryAux o op (r + 1) s = (.ok (some v), s2)) ∧
    (∀ e s2, (ensureAuth o s).1 = .ok () → op (ensureAuth o s).2 = (.error e, s2) →
      isCsrfError e = false →
      withAuthRetryAux o op (r + 1) s = (.error e, s2)) ∧
    (∀ e s2, (ensureAuth o s).1 = .ok () → op (ensureAuth o s).2 = (.error e, s2) →
      isCsrfError e = true → r ≠ 0 →
      withAuthRetryAux o op (r + 1) s = withAuthRetryAux o op r (retryState s2)) ∧
    (∀ e s2, (ensureAuth o s).1 = .ok () → op (ensureAuth o s).2 = (.error e, s2) →
      withAuthRetryAux o op 1 s = (.error e, s2)) ∧
    (∀ e, (ensureAuth o s).1 = .error e → isCsrfError e = false →
      withAuthRetryAux o op (r + 1) s = (.error e, (ensureAuth o s).2)) ∧
    (∀ e, (ensureAuth o s).1 = .error e → isCsrfError e = true → r ≠ 0 →
      withAuthRetryAux o op (r + 1) s
        = withAuthRetryAux o op r (retryState (ensureAuth o s).2)) := by
  refine ⟨rfl, rfl, ?_, ?_, ?_, ?_, ?_, ?_⟩
  · intro v s2 ha hop
    exact retryAux_first_ok o op (r + 1) s (by simp) ha v s2 hop
  · intro e s2 ha hop hnc
    exact retryAux_first_err o op r s ha e s2 hop (by simp [hnc])
  · intro e s2 ha hop hc hr
    exact retryAux_csrf_step o op r s ha e s2 hop hc hr
  · intro e s2 ha hop
    exact retryAux_first_err o op 0 s ha e s2 hop (by simp)
  · intro e ha hnc
    exact retryAux_auth_err o op r s e ha (by simp [hnc])
  · intro e ha hc hr
    exact retryAux_auth_csrf o op r s e ha hc hr

/-- Witness for C1: on a healthy platform the wrapped `setRank` succeeds on
the first attempt, returning immediately after one login and one call. -/
theorem claim_c1_retry_policy_witness :
    withAuthRetryAux oHealthy (callSetRank oHealthy 7 (some 123) (some 50)) 3 St.init
      = (.ok (some ()),
         { St.init with
             authed := true, loginCalls := 1, userCalls := 1,
             setRankLog := [⟨7, some 123, some 50⟩] }) := by
  exact (claim_c1_retry_policy oHealthy
      (callSetRank oHealthy 7 (some 123) (some 50)) 2 St.init).2.2.1 ()
    { St.init with
        authed := true, loginCalls := 1, userCalls := 1,
        setRankLog := [⟨7, some 123, some 50⟩] }
    rfl rfl

/-- Claim C2: if every attempt raises the session-invalidity signature,
`withAuthRetry` terminates after exactly `tries` operation invocations and
propagates the last failure; concretely, on an all-CSRF platform each
handler answers 500 with its operation-specific error code after exactly 3
remote operation calls. -/
theorem claim_c2_exhaustion (o : Oracle) (gid : Int) (uid rank : Option Int)
    (hL : healthyLogins o)
    (hC : ∀ k, ∃ e, o.setRank k = .error e ∧ isCsrfError e = true)
    (tries : Nat) (s : St) (ht : tries ≠ 0) :
    (∃ e, o.setRank (s.setRankLog.length + (tries - 1)) = .error e ∧
      (withAuthRetryAux o (callSetRank o gid uid rank) tries s).1 = .error e ∧
      (withAuthRetryAux o (callSetRank o gid uid rank) tries s).2.setRankLog.length
        = s.setRankLog.length + tries) ∧
    ((postSetRank cfg0 req50 oAllCsrf St.init).1
        = resp 500 (.errBody "set_rank_failed") ∧
      (postSetRank cfg0 req50 oAllCsrf St.init).2.setRankLog.length = 3) ∧
    ((postRemove cfg0 req50 oAllCsrf St.init).1
        = resp 500 (.errBody "remove_failed") ∧
      (postRemove cfg0 req50 oAllCsrf St.init).2.exileLog.length = 3) ∧
    ((postAcceptJoin cfg0 req50 oAllCsrf St.init).1
        = resp 500 (.errBody "accept_join_failed") ∧
      (postAcceptJoin cfg0 req50 oAllCsrf St.init).2.joinLog.length = 3) ∧
    ((postEnsureMemberAndRank cfg0 req50 oAllCsrf St.init).1
        = resp 500 (.errBody "ensure_member_rank_failed") ∧
      (postEnsureMemberAndRank cfg0 req50 oAllCsrf St.init).2.setRankLog.length = 3) ∧
    (getRanks cfg0 req50 oAllCsrf St.init).1 = resp 500 (.errBody "ranks_failed") := by
  refine ⟨retryAux_exhaust o gid uid rank hL hC tries s ht, ?_, ?_, ?_, ?_, ?_⟩
  · exact ⟨by decide, by decide⟩
  · exact ⟨by decide, by decide⟩
  · exact ⟨by decide, by decide⟩
  · exact ⟨by decide, by decide⟩
  · decide

/-- Witness for C2: the all-CSRF platform drives `/set-rank` to a 500 with
`set_rank_failed` (after the bounded retries). -/
theorem claim_c2_exhaustion_witness :
    (postSetRank cfg0 req50 oAllCsrf St.init).1
      = resp 500 (.errBody "set_rank_failed") :=
  (claim_c2_exhaustion oAllCsrf 7 (some 123) (some 50) oAllCsrf_logins
    (fun _ => ⟨csrfMsg, rfl, by decide⟩) 3 St.init (by decide)).2.1.1

/-- Claim C3 counterexample: on a platform whose identity check would
return no valid identity, the legacy `ensureLogin` nevertheless succeeds,
marks the session authenticated, and never calls `getCurrentUser` — where
the claim requires the call to fail with the flag left unset. -/
theorem claim_c3_cex :
    (oNoIdentity.login 0).currentUserId = .ok none ∧
    (ensureLogin oNoIdentity St.init).1 = .ok () ∧
    (ensureLogin oNoIdentity St.init).2.authed = true ∧
    (ensureLogin oNoIdentity St.init).2.userCalls = 0 :=
  ⟨rfl, rfl, rfl, rfl⟩

/-- Claim C3 as amended: `ensureAuth` returns immediately with no network
call when authenticated, and otherwise logs in, runs the self-identity
check, and on an invalid identity fails leaving the flag unset; the legacy
`ensureLogin`, however, performs no identity check and marks the session
authenticated as soon as `setCookie` succeeds. -/
theorem claim_c3_session (o : Oracle) (s : St) :
    (s.authed = true → ensureAuth o s = (.ok (), s)) ∧
    (∀ u, s.authed = false →
      (o.login s.loginCalls).setCookieRes = .ok () →
      (o.login s.loginCalls).currentUserId = .ok u →
      validUser u = false →
      ensureAuth o s
        = (.error "Roblox auth sanity check failed",
           { s with loginCalls := s.loginCalls + 1,
                    userCalls := s.userCalls + 1 }) ∧
      (ensureAuth o s).2.authed = false) ∧
    (∀ u, s.authed = false →
      (o.login s.loginCalls).setCookieRes = .ok () →
      (o.login s.loginCalls).currentUserId = .ok u →
      validUser u = true →
      ensureAuth o s
        = (.ok (), { s with loginCalls := s.loginCalls + 1,
                            userCalls := s.userCalls + 1, authed := true })) ∧
    (s.authed = true → ensureLogin o s = (.ok (), s)) ∧
    (s.authed = false → (o.login s.loginCalls).setCookieRes = .ok () →
      ensureLogin o s
        = (.ok (), { s with loginCalls := s.loginCalls + 1, authed := true })) := by
  refine ⟨?_, ?_, ?_, ?_, ?_⟩
  · intro h; simp [ensureAuth, h]
  · intro u h hc hcu hv
    have he : ensureAuth o s
        = (.error "Roblox auth sanity check failed",
           { s with loginCalls := s.loginCalls + 1,
                    userCalls := s.userCalls + 1 }) := by
      simp [ensureAuth, h, hc, hcu, hv]
    exact ⟨he, by rw [he]; exact h⟩
  · intro u h hc hcu hv
    simp [ensureAuth, h, hc, hcu, hv]
  · intro h; simp [ensureLogin, h]
  · intro h hc; simp [ensureLogin, h, hc]

/-- Witness for C3 (amended): the invalid-identity platform makes
`ensureAuth` fail with the sanity-check error and leaves the flag unset. -/
theorem claim_c3_session_witness :
    ensureAuth oNoIdentity St.init
      = (.error "Roblox auth sanity check failed",
         { St.init with loginCalls := St.init.loginCalls + 1,
                        userCalls := St.init.userCalls + 1 }) ∧
    (ensureAuth oNoIdentity St.init).2.authed = false :=
  (claim_c3_session oNoIdentity St.init).2.1 none rfl rfl rfl rfl

/-- Lemma: `ensureAuth` can only succeed leaving the session marked
authenticated. -/
theorem ensureAuth_ok_authed (o : Oracle) (s : St)
    (h : (ensureAuth o s).1 = .ok ()) : (ensureAuth o s).2.authed = true := by
  by_cases hs : s.authed = true
  · simp [ensureAuth, hs]
  · simp only [Bool.not_eq_true] at hs
    simp only [ensureAuth, hs, Bool.false_eq_true, if_false] at h ⊢
    cases hc : (o.login s.loginCalls).setCookieRes with
    | error e => simp [hc] at h
    | ok u =>
      simp only [hc] at h ⊢
      cases hcu : (o.login s.loginCalls).currentUserId with
      | error e => simp [hcu] at h
      | ok me =>
        simp only [hcu] at h ⊢
        by_cases hv : validUser me = true
        · simp [hv]
        · simp only [Bool.not_eq_true] at hv
          simp [hv] at h

/-- Claim C4 counterexample: three CSRF-signature failures in a row leave
the shared flag `true` after the run — the final CSRF-failing attempt does
not reset it, where the claim says every CSRF-failing attempt does. -/
theorem claim_c4_cex :
    isCsrfError csrfMsg = true ∧
    (withAuthRetry oAllCsrf (callSetRank oAllCsrf 7 (some 123) (some 50)) St.init).1
      = .error csrfMsg ∧
    (withAuthRetry oAllCsrf (callSetRank oAllCsrf 7 (some 123) (some 50)) St.init).2.authed
      = true :=
  ⟨by decide, rfl, by decide⟩

/-- Claim C4 as amended: the flag is reset to false before every retry of a
CSRF-failing attempt, but a CSRF failure on the final attempt propagates
with the flag left as the attempt set it (true, since its `ensureAuth`
succeeded). -/
theorem claim_c4_invalidate {α : Type} (o : Oracle)
    (op : St → Except String α × St) (r : Nat) (s : St)
    (hpres : ∀ t, (op t).2.authed = t.authed) :
    (∀ e s2, (ensureAuth o s).1 = .ok () → op (ensureAuth o s).2 = (.error e, s2) →
      isCsrfError e = true → r ≠ 0 →
      withAuthRetryAux o op (r + 1) s = withAuthRetryAux o op r (retryState s2) ∧
      (retryState s2).authed = false) ∧
    (∀ e s2, (ensureAuth o s).1 = .ok () → op (ensureAuth o s).2 = (.error e, s2) →
      isCsrfError e = true →
      withAuthRetryAux o op 1 s = (.error e, s2) ∧ s2.authed = true) := by
  constructor
  · intro e s2 ha hop hc hr
    exact ⟨retryAux_csrf_step o op r s ha e s2 hop hc hr, rfl⟩
  · intro e s2 ha hop hc
    refine ⟨retryAux_first_err o op 0 s ha e s2 hop (by simp), ?_⟩
    have h2 := hpres (ensureAuth o s).2
    rw [hop] at h2
    rw [h2]
    exact ensureAuth_ok_authed o s ha

/-- Witness for C4 (amended): a single-attempt run whose only attempt fails
with the CSRF signature ends with the flag still set. -/
theorem claim_c4_invalidate_witness :
    withAuthRetryAux oAllCsrf (callSetRank oAllCsrf 7 (some 123) (some 50)) 1 St.init
      = (.error csrfMsg,
         { St.init with
             authed := true, loginCalls := 1, userCalls := 1,
             setRankLog := [⟨7, some 123, some 50⟩] }) ∧
    ({ St.init with
         authed := true, loginCalls := 1, userCalls := 1,
         setRankLog := [⟨7, some 123, some 50⟩] } : St).authed = true :=
  (claim_c4_invalidate oAllCsrf (callSetRank oAllCsrf 7 (some 123) (some 50)) 0 St.init
    (fun _ => rfl)).2 csrfMsg
    { St.init with
        authed := true, loginCalls := 1, userCalls := 1,
        setRankLog := [⟨7, some 123, some 50⟩] }
    rfl rfl (by decide)

/-- Claim C5 counterexample: the legacy middleware answers a missing secret
with `sendStatus(401)`, whose body is the text `Unauthorized`, not the JSON
body `error: unauthorized` the claim requires. -/
theorem claim_c5_cex :
    (legacyPostRemove cfg0 reqNoSecret oHealthy St.init).1
      = resp 401 (.textBody "Unauthorized") ∧
    resp 401 (.textBody "Unauthorized") ≠ resp 401 (.errBody "unauthorized") :=
  ⟨by decide, by decide⟩

/-- Claim C5 as amended: any request to a non-health route whose
`X-Secret-Key` header is absent or differs from the configured secret is
rejected 401 before any handler logic, with the state (hence the remote
platform) untouched; the main server's body is the JSON
`error: unauthorized`, while the legacy middleware sends the default
`Unauthorized` text body. -/
theorem claim_c5_gate (cfg : Config) (req : Request) (o : Oracle) (s : St)
    (h : req.secret ≠ some cfg.secret) :
    postSetRank cfg req o s = (resp 401 (.errBody "unauthorized"), s) ∧
    postRemove cfg req o s = (resp 401 (.errBody "unauthorized"), s) ∧
    postAcceptJoin cfg req o s = (resp 401 (.errBody "unauthorized"), s) ∧
    postEnsureMemberAndRank cfg req o s = (resp 401 (.errBody "unauthorized"), s) ∧
    getRanks cfg req o s = (resp 401 (.errBody "unauthorized"), s) ∧
    legacyPostSetRank cfg req o s = (resp 401 (.textBody "Unauthorized"), s) ∧
    legacyPostRemove cfg req o s = (resp 401 (.textBody "Unauthorized"), s) ∧
    legacyGetRanks cfg req o s = (resp 401 (.textBody "Unauthorized"), s) := by
  have hq : requireSecret cfg req = false := by
    simp only [requireSecret]
    exact beq_eq_false_iff_ne.mpr h
  have hlg : legacyGateRejects cfg req = true := by
    unfold legacyGateRejects
    cases hr : req.secret with
    | none => rfl
    | some k =>
      have hk : k ≠ cfg.secret := by
        intro hk
        exact h (by rw [hr, hk])
      simp [hk]
  refine ⟨?_, ?_, ?_, ?_, ?_, ?_, ?_, ?_⟩
  · simp [postSetRank, hq]
  · simp [postRemove, hq]
  · simp [postAcceptJoin, hq]
  · simp [postEnsureMemberAndRank, hq]
  · simp [getRanks, hq]
  · simp [legacyPostSetRank, hlg]
  · simp [legacyPostRemove, hlg]
  · simp [legacyGetRanks, hlg]

/-- Witness for C5 (amended): a request without the header is rejected by
`/remove` with the JSON body and an untouched state. -/
theorem claim_c5_gate_witness :
    postRemove cfg0 reqNoSecret oHealthy St.init
      = (resp 401 (.errBody "unauthorized"), St.init) :=
  (claim_c5_gate cfg0 reqNoSecret oHealthy St.init (by decide)).2.1

/-- When the role list fetch succeeds at once but the requested role id is
not in the list, the shared rank block stops with `invalidRole` and never
issues a `setRank` call. -/
theorem resolveRank_invalid (cfg : Config) (b : ReqBody) (o : Oracle) (s : St)
    (roles : List Role) (hL : healthyLogins o)
    (hrole : notNullish b.roleId = true)
    (hroles : o.getRoles s.rolesCalls = .ok roles)
    (hfind : findRole roles (toNumber b.roleId) = none) :
    (resolveRank cfg b o s).1 = .invalidRole ∧
    (resolveRank cfg b o s).2.setRankLog = s.setRankLog := by
  have ha := (ensureAuth_healthy o hL s).1
  obtain ⟨hpr, hps, -⟩ := ensureAuth_preserve o s
  have hop : callGetRoles o (ensureAuth o s).2
      = (.ok roles,
         { (ensureAuth o s).2 with rolesCalls := (ensureAuth o s).2.rolesCalls + 1 }) := by
    simp [callGetRoles, hpr, hroles]
  have hrun := retryAux_first_ok o (callGetRoles o) 3 s (by simp) ha roles _ hop
  simp only [resolveRank, hrole, if_true, withAuthRetry, hrun]
  simp [hfind, hps]

/-- Claim C6 counterexample: `/ensure-member-and-rank` with no rank target
does answer the right 400, but it has already made a remote
`handleJoinRequest` call (and a login) first — not the zero remote calls
the claim states. -/
theorem claim_c6_cex :
    (postEnsureMemberAndRank cfg0 reqNoTarget oHealthy St.init).1
      = resp 400 (.errBody "missing_roleId_or_rankNumber") ∧
    (postEnsureMemberAndRank cfg0 reqNoTarget oHealthy St.init).2.joinLog.length = 1 :=
  ⟨by decide, by decide⟩

/-- Claim C6 as amended: with both rank targets absent `/set-rank` answers
400 `missing_roleId_or_rankNumber` making no remote call at all, while
`/ensure-member-and-rank` answers the same 400 only after its accept-join
attempt (no role fetch or rank-set call happens); an unresolvable `roleId`
yields 400 `invalid_roleId` on either route with no rank-set call. -/
theorem claim_c6_rank_target (cfg : Config) (req : Request) (o : Oracle) (s : St)
    (hsec : requireSecret cfg req = true)
    (hid : truthy req.body.robloxId = true) :
    (notNullish req.body.roleId = false → notNullish req.body.rankNumber = false →
      postSetRank cfg req o s
        = (resp 400 (.errBody "missing_roleId_or_rankNumber"), s)) ∧
    (notNullish req.body.roleId = false → notNullish req.body.rankNumber = false →
      (postEnsureMemberAndRank cfg req o s).1
        = resp 400 (.errBody "missing_roleId_or_rankNumber") ∧
      (postEnsureMemberAndRank cfg req o s).2.rolesCalls = s.rolesCalls ∧
      (postEnsureMemberAndRank cfg req o s).2.setRankLog = s.setRankLog) ∧
    (∀ roles, healthyLogins o → notNullish req.body.roleId = true →
      o.getRoles s.rolesCalls = .ok roles →
      findRole roles (toNumber req.body.roleId) = none →
      (postSetRank cfg req o s).1 = resp 400 (.errBody "invalid_roleId") ∧
      (postSetRank cfg req o s).2.setRankLog = s.setRankLog) ∧
    (∀ roles, healthyLogins o → notNullish req.body.roleId = true →
      o.getRoles s.rolesCalls = .ok roles →
      findRole roles (toNumber req.body.roleId) = none →
      (postEnsureMemberAndRank cfg req o s).1 = resp 400 (.errBody "invalid_roleId") ∧
      (postEnsureMemberAndRank cfg req o s).2.setRankLog = s.setRankLog) := by
  have hjoin : ∀ n t,
      ((withAuthRetryAux o (callJoin o cfg.groupId (toNumber req.body.robloxId)) n t).2.rolesCalls,
       (withAuthRetryAux o (callJoin o cfg.groupId (toNumber req.body.robloxId)) n t).2.setRankLog)
        = (t.rolesCalls, t.setRankLog) :=
    retryAux_preserve o _ (fun u => (u.rolesCalls, u.setRankLog))
      (fun u => by
        obtain ⟨h1, h2, -⟩ := ensureAuth_preserve o u
        dsimp only
        rw [h1, h2])
      (fun _ => rfl) (fun _ => rfl)
  have hj1 : ∀ n t,
      (withAuthRetryAux o (callJoin o cfg.groupId (toNumber req.body.robloxId)) n t).2.rolesCalls
        = t.rolesCalls := fun n t => congrArg Prod.fst (hjoin n t)
  have hj2 : ∀ n t,
      (withAuthRetryAux o (callJoin o cfg.groupId (toNumber req.body.robloxId)) n t).2.setRankLog
        = t.setRankLog := fun n t => congrArg Prod.snd (hjoin n t)
  refine ⟨?_, ?_, ?_, ?_⟩
  · intro h1 h2
    simp [postSetRank, hsec, hid, resolveRank, rankResp, h1, h2]
  · intro h1 h2
    refine ⟨?_, ?_, ?_⟩ <;>
      simp [postEnsureMemberAndRank, hsec, hid, resolveRank, rankResp, h1, h2,
        withAuthRetry, hj1 3, hj2 3]
  · intro roles hL hrole hroles hfind
    obtain ⟨h1, h2⟩ := resolveRank_invalid cfg req.body o s roles hL hrole hroles hfind
    cases hres : resolveRank cfg req.body o s with
    | mk out s1 =>
      rw [hres] at h1 h2
      dsimp at h1 h2
      subst h1
      exact ⟨by simp [postSetRank, hsec, hid, hres, rankResp],
             by simp [postSetRank, hsec, hid, hres, h2]⟩
  · intro roles hL hrole hroles hfind
    have hroles2 : o.getRoles
        (withAuthRetryAux o (callJoin o cfg.groupId (toNumber req.body.robloxId)) 3 s).2.rolesCalls
        = .ok roles := by rw [hj1 3 s]; exact hroles
    obtain ⟨h1, h2⟩ := resolveRank_invalid cfg req.body o
      (withAuthRetryAux o (callJoin o cfg.groupId (toNumber req.body.robloxId)) 3 s).2
      roles hL hrole hroles2 hfind
    cases hres : resolveRank cfg req.body o
        (withAuthRetryAux o (callJoin o cfg.groupId (toNumber req.body.robloxId)) 3 s).2 with
    | mk out s1 =>
      rw [hres] at h1 h2
      dsimp at h1 h2
      subst h1
      rw [hj2 3 s] at h2
      exact ⟨by simp [postEnsureMemberAndRank, hsec, hid, withAuthRetry, hres, rankResp],
             by simp [postEnsureMemberAndRank, hsec, hid, withAuthRetry, hres, h2]⟩

/-- Witness for C6 (amended): a role id absent from the fetched role list
makes `/set-rank` answer 400 `invalid_roleId` with no rank-set call. -/
theorem claim_c6_rank_target_witness :
    (postSetRank cfg0 reqBadRole oHealthy St.init).1
      = resp 400 (.errBody "invalid_roleId") ∧
    (postSetRank cfg0 reqBadRole oHealthy St.init).2.setRankLog = [] := by
  have h := (claim_c6_rank_target cfg0 reqBadRole oHealthy St.init
    (by decide) (by decide)).2.2.1
    [roleGuest, roleMember] oHealthy_logins (by decide) rfl (by decide)
  simpa [St.init] using h

/-- Claim C7 counterexample: the main `/remove` accepts the non-numeric id
`"abc"` (it is truthy), issues the remote exile call with a NaN user id,
and answers 200 — where the claim requires a 400 with no remote call. -/
theorem claim_c7_cex :
    (postRemove cfg0 reqBadId oHealthy St.init).1 = resp 200 .okTrue ∧
    (postRemove cfg0 reqBadId oHealthy St.init).2.exileLog = [⟨7, none⟩] :=
  ⟨by decide, by decide⟩

/-- Claim C7 as amended: the legacy handlers do reject an absent or
non-numeric id with 400 and no mutating call, but the main server checks
only truthiness: it rejects falsy ids (absent, 0, empty) with 400
`missing_robloxId` and no call, while a truthy non-numeric id flows through
to the remote mutating call as NaN. -/
theorem claim_c7_numeric_id (cfg : Config) (req : Request) (o : Oracle) (s : St) :
    (requireSecret cfg req = true → truthy req.body.robloxId = false →
      postSetRank cfg req o s = (resp 400 (.errBody "missing_robloxId"), s) ∧
      postRemove cfg req o s = (resp 400 (.errBody "missing_robloxId"), s) ∧
      postAcceptJoin cfg req o s = (resp 400 (.errBody "missing_robloxId"), s) ∧
      postEnsureMemberAndRank cfg req o s
        = (resp 400 (.errBody "missing_robloxId"), s)) ∧
    (legacyGateRejects cfg req = false → healthyLogins o →
      truthy req.body.robloxId = true → toNumber req.body.robloxId = none →
      ((legacyPostRemove cfg req o s).1
          = resp 400 (.errBody "robloxId (or valid username) required") ∧
        (legacyPostRemove cfg req o s).2.exileLog = s.exileLog) ∧
      ((legacyPostSetRank cfg req o s).1 = resp 400 (.errBody "robloxId required") ∧
        (legacyPostSetRank cfg req o s).2.setRankLog = s.setRankLog)) ∧
    (requireSecret cfg req = true → healthyLogins o →
      truthy req.body.robloxId = true → toNumber req.body.robloxId = none →
      o.exile s.exileLog.length = .ok () →
      (postRemove cfg req o s).1 = resp 200 .okTrue ∧
      (postRemove cfg req o s).2.exileLog
        = s.exileLog ++ [⟨cfg.groupId, none⟩]) := by
  refine ⟨?_, ?_, ?_⟩
  · intro hsec hfalsy
    refine ⟨?_, ?_, ?_, ?_⟩ <;>
      simp [postSetRank, postRemove, postAcceptJoin, postEnsureMemberAndRank,
        hsec, hfalsy]
  · intro hgate hL htr hnan
    cases hel : ensureLogin o s with
    | mk r1 s1 =>
      have h := ensureLogin_healthy o hL s
      rw [hel] at h
      dsimp at h
      obtain ⟨hr1, hauth, hroles, hsrl, hex, hgid, hus⟩ := h
      subst hr1
      constructor
      · constructor
        · simp [legacyPostRemove, hgate, hel, htr, hnan]
        · simp [legacyPostRemove, hgate, hel, htr, hnan, hex]
      · constructor
        · simp [legacyPostSetRank, hgate, hel, htr, hnan]
        · simp [legacyPostSetRank, hgate, hel, htr, hnan, hsrl]
  · intro hsec hL htr hnan hexok
    have ha := (ensureAuth_healthy o hL s).1
    obtain ⟨-, -, hex, -⟩ := ensureAuth_preserve o s
    have hop : callExile o cfg.groupId (toNumber req.body.robloxId) (ensureAuth o s).2
        = (.ok (),
           { (ensureAuth o s).2 with
               exileLog := (ensureAuth o s).2.exileLog
                 ++ [⟨cfg.groupId, toNumber req.body.robloxId⟩] }) := by
      simp [callExile, hex, hexok]
    have hrun := retryAux_first_ok o
      (callExile o cfg.groupId (toNumber req.body.robloxId)) 3 s (by simp) ha () _ hop
    rw [hnan] at hrun
    constructor
    · simp [postRemove, hsec, htr, withAuthRetry, hnan, hrun]
    · simp [postRemove, hsec, htr, withAuthRetry, hnan, hrun, hex]

/-- Witness for C7 (amended): an absent id is rejected by the main
`/remove` with 400 and an untouched state. -/
theorem claim_c7_numeric_id_witness :
    postRemove cfg0 ⟨some "sek", ReqBody.empty⟩ oHealthy St.init
      = (resp 400 (.errBody "missing_robloxId"), St.init) :=
  ((claim_c7_numeric_id cfg0 ⟨some "sek", ReqBody.empty⟩ oHealthy St.init).1
    (by decide) (by decide)).2.1

/-- Claim C8: a `/set-rank` request with a valid secret, a truthy id and a
`rankNumber` target, against a healthy session whose rank-set call
succeeds, answers `200 ok:true, appliedRank:N` with `N` the applied rank,
having issued exactly that rank-set call. -/
theorem claim_c8_set_rank_ok (cfg : Config) (req : Request) (o : Oracle) (s : St)
    (hsec : requireSecret cfg req = true)
    (hid : truthy req.body.robloxId = true)
    (hrole : notNullish req.body.roleId = false)
    (hrank : notNullish req.body.rankNumber = true)
    (hses : s.authed = true)
    (hok : o.setRank s.setRankLog.length = .ok ()) :
    (postSetRank cfg req o s).1
      = resp 200 (.okApplied (toNumber req.body.rankNumber)) ∧
    (postSetRank cfg req o s).2.setRankLog
      = s.setRankLog ++ [⟨cfg.groupId, toNumber req.body.robloxId,
                         toNumber req.body.rankNumber⟩] := by
  have ha0 : ensureAuth o s = (.ok (), s) := by simp [ensureAuth, hses]
  have ha : (ensureAuth o s).1 = .ok () := by rw [ha0]
  have hop : callSetRank o cfg.groupId (toNumber req.body.robloxId)
      (toNumber req.body.rankNumber) (ensureAuth o s).2
      = (.ok (),
         { s with setRankLog := s.setRankLog
             ++ [⟨cfg.groupId, toNumber req.body.robloxId,
                  toNumber req.body.rankNumber⟩] }) := by
    rw [ha0]
    simp [callSetRank, hok]
  have hrun := retryAux_first_ok o _ 3 s (by simp) ha () _ hop
  constructor
  · simp [postSetRank, hsec, hid, resolveRank, hrole, hrank, applyRank,
      withAuthRetry, hrun, rankResp]
  · simp [postSetRank, hsec, hid, resolveRank, hrole, hrank, applyRank,
      withAuthRetry, hrun]

/-- Witness for C8: the spec's end-to-end example, body
robloxId 123 / rankNumber 50, answers `200 ok:true, appliedRank:50`. -/
theorem claim_c8_set_rank_ok_witness :
    (postSetRank cfg0 req50 oHealthy { St.init with authed := true }).1
      = resp 200 (.okApplied (some 50)) :=
  (claim_c8_set_rank_ok cfg0 req50 oHealthy { St.init with authed := true }
    (by decide) (by decide) (by decide) (by decide) rfl rfl).1

/-- Under healthy logins, the rank-apply step's outcome depends only on how
many role fetches and rank-set calls came before. -/
theorem applyRank_congr (cfg : Config) (o : Oracle) (uid rank : Option Int)
    (hL : healthyLogins o) (s t : St)
    (h1 : s.rolesCalls = t.rolesCalls)
    (h2 : s.setRankLog.length = t.setRankLog.length) :
    (applyRank cfg o uid rank s).1 = (applyRank cfg o uid rank t).1 := by
  obtain ⟨hres, -⟩ := retryAux_congr o (callSetRank o cfg.groupId uid rank)
    (fun u => (u.rolesCalls, u.setRankLog.length)) hL
    (fun u => by
      obtain ⟨ha, hb, -⟩ := ensureAuth_preserve o u
      dsimp only
      rw [ha, hb])
    (fun u v huv => by
      have e1 : u.rolesCalls = v.rolesCalls := congrArg Prod.fst huv
      have e2 : u.setRankLog.length = v.setRankLog.length := congrArg Prod.snd huv
      constructor
      · dsimp [callSetRank]
        rw [e2]
      · simp [callSetRank, e1, e2])
    (fun _ => rfl)
    3 s t (by dsimp only; rw [h1, h2])
  simp only [applyRank, withAuthRetry]
  cases hx : withAuthRetryAux o (callSetRank o cfg.groupId uid rank) 3 s with
  | mk r1 s1 =>
    cases hy : withAuthRetryAux o (callSetRank o cfg.groupId uid rank) 3 t with
    | mk r2 s2 =>
      rw [hx, hy] at hres
      dsimp at hres
      subst hres
      cases r1 <;> rfl

/-- Under healthy logins, the whole shared rank block's outcome depends
only on how many role fetches and rank-set calls came before. -/
theorem resolveRank_congr (cfg : Config) (b : ReqBody) (o : Oracle)
    (hL : healthyLogins o) (s t : St)
    (h1 : s.rolesCalls = t.rolesCalls)
    (h2 : s.setRankLog.length = t.setRankLog.length) :
    (resolveRank cfg b o s).1 = (resolveRank cfg b o t).1 := by
  by_cases hrole : notNullish b.roleId = true
  · obtain ⟨hres, hfin⟩ := retryAux_congr o (callGetRoles o)
      (fun u => (u.rolesCalls, u.setRankLog.length)) hL
      (fun u => by
        obtain ⟨ha, hb, -⟩ := ensureAuth_preserve o u
        dsimp only
        rw [ha, hb])
      (fun u v huv => by
        have e1 : u.rolesCalls = v.rolesCalls := congrArg Prod.fst huv
        have e2 : u.setRankLog.length = v.setRankLog.length := congrArg Prod.snd huv
        constructor
        · dsimp [callGetRoles]
          rw [e1]
        · dsimp [callGetRoles]
          rw [e1, e2])
      (fun _ => rfl)
      3 s t (by dsimp only; rw [h1, h2])
    simp only [resolveRank, hrole, if_true, withAuthRetry]
    cases hx : withAuthRetryAux o (callGetRoles o) 3 s with
    | mk r1 s1 =>
      cases hy : withAuthRetryAux o (callGetRoles o) 3 t with
      | mk r2 s2 =>
        rw [hx, hy] at hres hfin
        dsimp at hres hfin
        subst hres
        cases r1 with
        | error e => rfl
        | ok v =>
          cases v with
          | none => rfl
          | some roles =>
            dsimp only
            cases hf : findRole roles (toNumber b.roleId) with
            | none => rfl
            | some role =>
              dsimp only
              exact applyRank_congr cfg o (toNumber b.robloxId) (some role.rank) hL s1 s2
                (congrArg Prod.fst hfin) (congrArg Prod.snd hfin)
  · simp only [Bool.not_eq_true] at hrole
    by_cases hrank : notNullish b.rankNumber = true
    · simp only [resolveRank, hrole, Bool.false_eq_true, if_false, hrank, if_true]
      exact applyRank_congr cfg o (toNumber b.robloxId) (toNumber b.rankNumber) hL s t h1 h2
    · simp only [Bool.not_eq_true] at hrank
      simp [resolveRank, hrole, hrank]

/-- Lemma: the response mapping of `/ensure-member-and-rank` is that of
`/set-rank` with only
the remote-failure code renamed. -/
theorem renameSR_rankResp (out : RankOutcome) :
    renameSR (rankResp "set_rank_failed" out)
      = rankResp "ensure_member_rank_failed" out := by
  cases out with
  | applied r => simp [renameSR, rankResp, resp]
  | invalidRole => decide
  | missingTarget => decide
  | remoteFail => decide

/-- Claim C9: for every request body with a valid secret, under healthy
logins, `/ensure-member-and-rank` first attempts the accept-join step
(whose outcome is discarded) and then resolves and applies the rank exactly
as `/set-rank` does: its response equals the `/set-rank` response for the
same body, except that a remote failure is coded
`ensure_member_rank_failed` instead of `set_rank_failed`. -/
theorem claim_c9_ensure_refines (cfg : Config) (req : Request) (o : Oracle)
    (s : St) (hL : healthyLogins o) :
    (postEnsureMemberAndRank cfg req o s).1
      = renameSR (postSetRank cfg req o s).1 := by
  by_cases hsec : requireSecret cfg req = true
  · by_cases hid : truthy req.body.robloxId = true
    · have hpv := retryAux_preserve o
        (callJoin o cfg.groupId (toNumber req.body.robloxId))
        (fun u => (u.rolesCalls, u.setRankLog.length))
        (fun u => by
          obtain ⟨ha, hb, -⟩ := ensureAuth_preserve o u
          dsimp only
          rw [ha, hb])
        (fun _ => rfl) (fun _ => rfl) 3 s
      have hout := resolveRank_congr cfg req.body o hL
        (withAuthRetryAux o (callJoin o cfg.groupId (toNumber req.body.robloxId)) 3 s).2 s
        (congrArg Prod.fst hpv) (congrArg Prod.snd hpv)
      cases hre : resolveRank cfg req.body o
          (withAuthRetryAux o (callJoin o cfg.groupId (toNumber req.body.robloxId)) 3 s).2 with
      | mk oute se =>
        cases hrs : resolveRank cfg req.body o s with
        | mk outs ss =>
          rw [hre, hrs] at hout
          dsimp at hout
          subst hout
          simp [postEnsureMemberAndRank, postSetRank, hsec, hid, withAuthRetry,
            hre, hrs, renameSR_rankResp]
    · simp only [Bool.not_eq_true] at hid
      simp [postEnsureMemberAndRank, postSetRank, hsec, hid, renameSR, resp]
  · simp only [Bool.not_eq_true] at hsec
    simp [postEnsureMemberAndRank, postSetRank, hsec, renameSR, resp]

/-- Witness for C9: for the example body the two handlers answer
identically (the response is a 200, which the rename leaves unchanged). -/
theorem claim_c9_ensure_refines_witness :
    (postEnsureMemberAndRank cfg0 req50 oHealthy St.init).1
      = renameSR (postSetRank cfg0 req50 oHealthy St.init).1 :=
  claim_c9_ensure_refines cfg0 req50 oHealthy St.init oHealthy_logins

/-- Claim C10: in the legacy `/set-rank`, a rank target that resolves to 0
— a literal `rankNumber` 0, or a `roleId` whose role has rank 0 — fails the
truthiness test and is rejected 400 exactly as a missing target, with no
rank-set call; the main server applies rank 0 normally. -/
theorem claim_c10_rank_zero (cfg : Config) (req : Request) (o : Oracle) (s : St)
    (hgate : legacyGateRejects cfg req = false)
    (hL : healthyLogins o)
    (hidt : truthy req.body.robloxId = true)
    (hidn : (toNumber req.body.robloxId).isNone = false) :
    (req.body.rankNumber = some (.num 0) → truthy req.body.roleId = false →
      (legacyPostSetRank cfg req o s).1
        = resp 400 (.errBody "rankNumber or roleId required") ∧
      (legacyPostSetRank cfg req o s).2.setRankLog = s.setRankLog) ∧
    (∀ roles role, truthy req.body.rankNumber = false →
      truthy req.body.roleId = true →
      o.getRoles s.rolesCalls = .ok roles →
      findRole roles (toNumber req.body.roleId) = some role → role.rank = 0 →
      (legacyPostSetRank cfg req o s).1
        = resp 400 (.errBody "rankNumber or roleId required") ∧
      (legacyPostSetRank cfg req o s).2.setRankLog = s.setRankLog) ∧
    (requireSecret cfg req = true → req.body.roleId = none →
      req.body.rankNumber = some (.num 0) → s.authed = true →
      o.setRank s.setRankLog.length = .ok () →
      (postSetRank cfg req o s).1 = resp 200 (.okApplied (some 0)) ∧
      (postSetRank cfg req o s).2.setRankLog
        = s.setRankLog ++ [⟨cfg.groupId, toNumber req.body.robloxId, some 0⟩]) := by
  have ht0 : truthy (some (JsVal.num 0)) = false := rfl
  have hn0 : toNumber (some (JsVal.num 0)) = some 0 := rfl
  have hnn : notNullish (none : Option JsVal) = false := rfl
  have hnr : notNullish (some (JsVal.num 0)) = true := rfl
  refine ⟨?_, ?_, ?_⟩
  · intro hrank0 hrolef
    cases hel : ensureLogin o s with
    | mk r1 s1 =>
      have h := ensureLogin_healthy o hL s
      rw [hel] at h
      dsimp at h
      obtain ⟨hr1, -, -, hsrl, -⟩ := h
      subst hr1
      constructor
      · simp [legacyPostSetRank, hgate, hel, hidt, hidn, hrank0, hrolef,
          legacyApply, ht0]
      · simp [legacyPostSetRank, hgate, hel, hidt, hidn, hrank0, hrolef,
          legacyApply, ht0, hsrl]
  · intro roles role hrankf hrolet hroles hfind hr0
    cases hel : ensureLogin o s with
    | mk r1 s1 =>
      have h := ensureLogin_healthy o hL s
      rw [hel] at h
      dsimp at h
      obtain ⟨hr1, -, hrc, hsrl, -⟩ := h
      subst hr1
      have hroles1 : o.getRoles s1.rolesCalls = .ok roles := by rw [hrc]; exact hroles
      constructor
      · simp [legacyPostSetRank, hgate, hel, hidt, hidn, hrankf, hrolet,
          callGetRoles, hroles1, hfind, hr0, legacyApply, ht0]
      · simp [legacyPostSetRank, hgate, hel, hidt, hidn, hrankf, hrolet,
          callGetRoles, hroles1, hfind, hr0, legacyApply, ht0, hsrl]
  · intro hsec hrolenone hrank0 hses hok
    have ha0 : ensureAuth o s = (.ok (), s) := by simp [ensureAuth, hses]
    have ha : (ensureAuth o s).1 = .ok () := by rw [ha0]
    have hop : callSetRank o cfg.groupId (toNumber req.body.robloxId) (some 0)
        (ensureAuth o s).2
        = (.ok (),
           { s with setRankLog := s.setRankLog
               ++ [⟨cfg.groupId, toNumber req.body.robloxId, some 0⟩] }) := by
      rw [ha0]
      simp [callSetRank, hok]
    have hrun := retryAux_first_ok o _ 3 s (by simp) ha () _ hop
    constructor
    · simp [postSetRank, hsec, hidt, resolveRank, hrolenone, hrank0, hnn, hnr,
        hn0, applyRank, withAuthRetry, hrun, rankResp]
    · simp [postSetRank, hsec, hidt, resolveRank, hrolenone, hrank0, hnn, hnr,
        hn0, applyRank, withAuthRetry, hrun]

/-- Witness for C10: rank 0 asked via `rankNumber` is applied (200) by the
main server and rejected 400 by the legacy variant. -/
theorem claim_c10_rank_zero_witness :
    (postSetRank cfg0 reqRank0 oHealthy { St.init with authed := true }).1
      = resp 200 (.okApplied (some 0)) ∧
    (legacyPostSetRank cfg0 reqRank0 oHealthy St.init).1
      = resp 400 (.errBody "rankNumber or roleId required") := by
  constructor
  · exact ((claim_c10_rank_zero cfg0 reqRank0 oHealthy
      { St.init with authed := true }
      (by decide) oHealthy_logins (by decide) (by decide)).2.2
      (by decide) rfl rfl rfl rfl).1
  · exact ((claim_c10_rank_zero cfg0 reqRank0 oHealthy St.init
      (by decide) oHealthy_logins (by decide) (by decide)).1 rfl (by decide)).1
